import Mathlib

/-!
Verification of the CEBL Home Assistant integration (ViceBooster/HA-CEBL).

This file gives a shallow embedding of the integration's reconciliation and
freshness engine — the fixture-selection, live-data staleness validation,
lifecycle-state derivation and error-handling logic of
`custom_components/cebl/sensor.py` and `custom_components/cebl/__init__.py` —
and proves the spec's testable properties over it.

Modelling conventions, used throughout:

* Instants are modelled as `Int` (seconds since the epoch); `now` is passed
  explicitly wherever the Python calls `datetime.now()` / `dt.now()`.
* The raw `start_time_utc` string is abstracted by `TimeStr`: `empty` is the
  empty (falsy) string, `malformed` a non-empty string every datetime parser
  in the source rejects, and `valid t` a well-formed ISO-8601 UTC string
  (containing a date-time separator and a UTC designator) that every parse
  site in the source parses to the instant `t`.
* Raw JSON scalars (score / live-flag values) are `RawVal`; Python's `int()`
  coercion is `pyInt` and the component's `_safe_score` is `safeScore`.
* Python dicts whose keys are dynamic (the sensor's attribute dictionary) are
  association lists `AttrList` with in-place-update semantics (`upsert`):
  updating an existing key keeps its position, a new key is appended — exactly
  `dict.update` / insertion-ordered Python dicts.
* `float` quantities (hours since a game) are represented exactly as `Rat`.
* Exceptions in the source are modelled by total functions: every `try/except`
  site is translated so the `except` branch becomes the corresponding
  default/`none` result, as noted at each definition.
-/

namespace CEBL

/-! ## Raw JSON scalar values and Python coercions -/

/-- A raw JSON scalar as it appears in score / live-flag positions:
an integer, a string, `null`, or a boolean. (The source treats anything
else the same as a non-numeric string: `int()` raises and the caller's
`except` branch fires.) -/
inductive RawVal where
  | rint (n : Int)
  | rstr (s : String)
  | rnull
  | rbool (b : Bool)
deriving DecidableEq, Repr

/-- Strip leading and trailing whitespace from a character list (Python
`int()` ignores surrounding whitespace). -/
def trimChars (l : List Char) : List Char :=
  ((l.dropWhile Char.isWhitespace).reverse.dropWhile Char.isWhitespace).reverse

/-- A non-empty all-digit character list as a natural number. -/
def digitsToNat (l : List Char) : Option Nat :=
  if l ≠ [] ∧ l.all Char.isDigit then
    some (l.foldl (fun a c => a * 10 + (c.toNat - 48)) 0)
  else none

/-- Python `int(str)` on a character list: optional surrounding whitespace,
optional sign, digits. `none` where Python `int()` raises `ValueError`. -/
def pyParseIntChars (l : List Char) : Option Int :=
  match trimChars l with
  | '-' :: rest => (digitsToNat rest).map (fun n => -(n : Int))
  | '+' :: rest => (digitsToNat rest).map (fun n => (n : Int))
  | t => (digitsToNat t).map (fun n => (n : Int))

/-- Python `int(str)`. -/
def pyParseInt (s : String) : Option Int :=
  pyParseIntChars s.data

/-- Python `str.upper()`, character-wise (the status vocabulary is ASCII). -/
def pyUpper (s : String) : String :=
  ⟨s.data.map Char.toUpper⟩

/-- Python `str.lower()`, character-wise. -/
def pyLower (s : String) : String :=
  ⟨s.data.map Char.toLower⟩

/-- `str.split(sep)` for a one-character separator. -/
def splitChar (sep : Char) : List Char → List (List Char)
  | [] => [[]]
  | c :: rest =>
    match splitChar sep rest with
    | h :: t => if c = sep then [] :: h :: t else (c :: h) :: t
    | [] => [[c]]

/-- Python `int(value)` on a raw JSON scalar; `none` where Python raises
(`TypeError` for `None`, `ValueError` for a non-numeric string). -/
def pyInt : RawVal → Option Int
  | .rint n => some n
  | .rstr s => pyParseInt s
  | .rbool b => some (if b then 1 else 0)
  | .rnull => none

/-- `CEBLBaseSensor._safe_score` (sensor.py:111-118): `None` and values on
which `int()` raises coerce to `0`. -/
def safeScore (v : RawVal) : Int :=
  (pyInt v).getD 0

/-! ## Start-time strings -/

/-- Abstraction of the `start_time_utc` string field (see file header). -/
inductive TimeStr where
  | empty
  | malformed
  | valid (t : Int)
deriving DecidableEq, Repr

/-- Truthiness of the raw string (`if start_time_utc:` in the source). -/
def TimeStr.truthy : TimeStr → Bool
  | .empty => false
  | _ => true

/-- Result of the source's datetime parsing of a `start_time_utc` string.
Models all three parse sites — `_get_team_fixture`'s
`datetime.fromisoformat` with the `'T'`/`'Z'` handling (sensor.py:228-240),
`_is_live_data_current`'s and the live-score gate's `fromisoformat` with
`endswith('Z')` (sensor.py:491-498, `__init__.py`:185-188, 208-211), and
`dt.parse_datetime` (sensor.py:834) — which agree on the `TimeStr`
abstraction: a well-formed string parses to its instant, anything else
yields `None`/an exception handled by the caller. -/
def parseTime : TimeStr → Option Int
  | .valid t => some t
  | _ => none

/-! ## Attribute values and attribute dictionaries -/

/-- A value stored in the sensor's attribute dictionary.
`time t` is the ISO rendering of the instant `t` (`.isoformat()` output);
`timeRaw` is a raw `start_time_utc` string passed through;
`rat` is a Python float that is an exact rational here;
`raw` embeds a raw JSON scalar passed through unchanged;
`pynone` is Python `None`;
`tcheck kos fm raw` is the nested `timing_consistency_check` dict
`{"kick_off_seconds": kos, "friendly_matches_seconds": fm,
  "all_use_same_start_time": raw}` (sensor.py:919-923). -/
inductive AttrVal where
  | str (s : String)
  | int (n : Int)
  | bool (b : Bool)
  | rat (q : Rat)
  | time (t : Int)
  | timeRaw (ts : TimeStr)
  | raw (v : RawVal)
  | pynone
  | tcheck (kos : Option Int) (fm : AttrVal) (rawTime : TimeStr)
deriving DecidableEq, Repr

/-- `Option Int` rendered as a Python value (`None` or an int). -/
def optInt : Option Int → AttrVal
  | some n => .int n
  | none => .pynone

/-- `Option String` rendered as a Python value. -/
def optStr : Option String → AttrVal
  | some s => .str s
  | none => .pynone

/-- `Option Rat` rendered as a Python value. -/
def optRat : Option Rat → AttrVal
  | some q => .rat q
  | none => .pynone

/-- Tri-state bool (`True`/`False`/`None`) rendered as a Python value. -/
def optBool : Option Bool → AttrVal
  | some b => .bool b
  | none => .pynone

/-- The sensor's attribute dictionary: an insertion-ordered Python dict. -/
abbrev AttrList := List (String × AttrVal)

/-- Dict lookup (`d[k]` / `d.get(k)`). -/
def alookup : AttrList → String → Option AttrVal
  | [], _ => none
  | (k', v) :: rest, k => if k' = k then some v else alookup rest k

/-- Single-key dict update: an existing key is updated in place (keeping its
position), a missing key is appended — insertion-ordered Python dicts. -/
def upsert : AttrList → String → AttrVal → AttrList
  | [], k, v => [(k, v)]
  | (k', v') :: rest, k, v =>
    if k' = k then (k, v) :: rest else (k', v') :: upsert rest k v

/-- `dict.update(upd)`: apply the updates left to right. -/
def upsertAll (l : AttrList) (upd : AttrList) : AttrList :=
  upd.foldl (fun acc kv => upsert acc kv.1 kv.2) l

/-! ## Fixtures and coordinator data -/

/-- One side of a fixture (`homeTeam` / `awayTeam` dicts built in
`__init__.py`:87-98): id and name are strings, logo is a string (the fetcher
normalizes missing logos to `""`), score is a raw JSON scalar. -/
structure Team where
  id : String
  name : String
  logo : String
  score : RawVal
deriving DecidableEq, Repr

/-- A normalized fixture record, with exactly the keys the fetcher produces
(`__init__.py`:85-111). `live` is already `int(...)`-coerced there. -/
structure Fixture where
  id : Option Int
  homeTeam : Team
  awayTeam : Team
  status : String
  competition : String
  venue_name : String
  period : Int
  start_time_utc : TimeStr
  stats_url : String
  cebl_stats_url : String
  live : Int
  match_status : String
  clock : String
  period_type : String
deriving DecidableEq, Repr

/-- Statuses treated as in-progress by `_get_team_fixture` (sensor.py:243). -/
def liveStatuses : List String := ["LIVE", "IN_PROGRESS", "HALFTIME", "QUARTER_BREAK"]

/-- Statuses treated as completed by the sensor (sensor.py:122, 245, 849). -/
def completedStatuses : List String := ["COMPLETE", "COMPLETED", "FINAL"]

/-! ## Live snapshot data -/

/-- The per-team statistics dict built by the coordinator
(`__init__.py`:339-370); each value is a raw pass-through (default `.int 0`
mirrors `tm.get(key, 0)`). -/
structure LiveTeamStats where
  field_goal_percentage : AttrVal := .int 0
  three_point_percentage : AttrVal := .int 0
  free_throw_percentage : AttrVal := .int 0
  rebounds : AttrVal := .int 0
  assists : AttrVal := .int 0
  turnovers : AttrVal := .int 0
  steals : AttrVal := .int 0
  blocks : AttrVal := .int 0
  bench_points : AttrVal := .int 0
  points_in_paint : AttrVal := .int 0
  points_from_turnovers : AttrVal := .int 0
  fast_break_points : AttrVal := .int 0
  biggest_lead : AttrVal := .int 0
  time_leading : AttrVal := .int 0
deriving DecidableEq, Repr

/-- A player entry of `team1_players`/`team2_players` as built by the
coordinator (`__init__.py`:278-295). `points` is the numeric `sPoints`
value (the top-scorer scan compares it with `>`); fields the sensor only
passes through stay raw. -/
structure LivePlayer where
  id : String := ""
  name : String := ""
  jersey : String := ""
  position : String := ""
  minutes : String := "0:00"
  photo : String := ""
  points : Int := 0
  rebounds : Int := 0
  assists : Int := 0
  plus_minus : AttrVal := .int 0
  fg_percentage : AttrVal := .int 0
  three_point_percentage : AttrVal := .int 0
  starter : AttrVal := .int 0
  captain : AttrVal := .int 0
deriving DecidableEq, Repr

/-- The flat `team1_*`/`team2_*` live-score record the coordinator stores in
`live_scores` (`__init__.py`:319-386). Pass-through fields the sensor never
reads (logos, officials, other games, coaches, ...) are not modelled. -/
structure Team12Data where
  team1_name : String
  team2_name : String
  team1_score : RawVal
  team2_score : RawVal
  clock : String
  period : Int
  period_type : String
  in_ot : Int
  team1_stats : LiveTeamStats := {}
  team2_stats : LiveTeamStats := {}
  team1_players : List LivePlayer := []
  team2_players : List LivePlayer := []
deriving DecidableEq, Repr

/-- One element of a list-shaped `tm` array (the old structure handled at
sensor.py:679-698): the sensor reads only `id` and `score` from it. -/
structure TmTeam where
  id : String
  score : RawVal
deriving DecidableEq, Repr

/-- A live payload with a list-shaped `tm` plus top-level clock/period
fields (sensor.py:679-698). (A dict-shaped `tm` would raise `KeyError` at
`game_data['tm'][0]` and leave the sensor state unchanged; that shape is
outside this model.) -/
structure TmData where
  tm : List TmTeam
  clock : String
  period : Int
  periodType : String
deriving DecidableEq, Repr

/-- A live-data payload, one constructor per structurally distinct shape the
sensor dispatches on (sensor.py:536, 574, 679, 730): fixture-style (has
`homeTeam`/`awayTeam` and the `live` flag), flat `team1_*`/`team2_*`,
list-shaped `tm`, or an unrecognized shape. -/
inductive LiveData where
  | fixtureStyle (f : Fixture)
  | team12 (d : Team12Data)
  | tmStyle (d : TmData)
  | unknown
deriving DecidableEq, Repr

/-- The coordinator's data dict: `{"fixtures": [...], "live_scores": {...}}`;
`live_scores` keys are game ids. A fresh fixture fetch has no `live_scores`
key, which reads via `.get('live_scores', {})` the same as `[]`. -/
structure CoordData where
  fixtures : List Fixture
  live_scores : List (Int × LiveData) := []
deriving DecidableEq, Repr

/-- The mutable per-entity sensor state touched by `_update_state`:
`self._state`, `self._attributes`, `self._is_live_game`,
`self._current_fixture`. -/
structure SensorState where
  state : String
  attributes : AttrList
  is_live : Bool
  current_fixture : Option Fixture
deriving DecidableEq, Repr

/-! ## Clock parsing -/

/-- The clock-string scan shared by the `team1_*`/`team2_*` and `tm` branches
(sensor.py:652-662, 704-714): if the string contains `':'`, split it and
`int()`-parse the first two parts; `none` models both "no colon" and a parse
failure (`ValueError`, caught at sensor.py:661). -/
def clockParse (c : String) : Option (Int × Int) :=
  match splitChar ':' c.data with
  | p0 :: p1 :: _ =>
    match pyParseIntChars p0, pyParseIntChars p1 with
    | some m, some s => some (m, s)
    | _, _ => none
  | _ => none

/-- `is_clock_running` (sensor.py:653-662): defaults to `True`; a parsed
clock is running iff minutes or seconds are positive; a parse failure keeps
the default `True` (bias toward "game running"). -/
def isClockRunning (c : String) : Bool :=
  match clockParse c with
  | some (m, s) => m > 0 || s > 0
  | none => true

/-! ## Live-snapshot state derivation (`_update_live_game_state`) -/

/-- The `game_info` record assembled by every branch of
`_update_live_game_state` (sensor.py:544-553, 633-643, 689-698, 737-746). -/
structure GameInfo where
  home_score : Int
  away_score : Int
  team_score : Int
  opponent_score : Int
  clock : String
  period : Int
  period_type : String
  is_live_api : Option Bool
deriving DecidableEq, Repr

/-- The state-relevant outcome of one `_update_live_game_state` branch:
the new `self._state`, the new `self._is_live_game`, and `game_info`. -/
structure LiveCore where
  state : String
  is_live : Bool
  info : GameInfo
deriving DecidableEq, Repr

/-- The minimal fallback for a truly unrecognized live-data structure
(sensor.py:736-751): zeroed info, state `IN`, live. -/
def fallbackCore : LiveCore :=
  { state := "IN", is_live := true,
    info := { home_score := 0, away_score := 0, team_score := 0,
              opponent_score := 0, clock := "00:00:00", period := 0,
              period_type := "UNKNOWN", is_live_api := none } }

/-- The branch dispatch and in-branch state/score derivation of
`_update_live_game_state` (sensor.py:536-751). `tf` is the value of
`self._get_team_fixture()` at the call (used by the `team1_*`/`team2_*`
branch, sensor.py:580). -/
def liveGameCore (teamId : String) (tf : Option Fixture) : LiveData → LiveCore
  | .fixtureStyle f =>
    -- sensor.py:536-571: fixture-style live data with the API `live` flag.
    let isHome := f.homeTeam.id == teamId
    let isLiveApi := f.live == 1
    let gi : GameInfo :=
      { home_score := safeScore f.homeTeam.score,
        away_score := safeScore f.awayTeam.score,
        team_score := if isHome then safeScore f.homeTeam.score else safeScore f.awayTeam.score,
        opponent_score := if isHome then safeScore f.awayTeam.score else safeScore f.homeTeam.score,
        clock := f.clock, period := f.period, period_type := f.period_type,
        is_live_api := some isLiveApi }
    if isLiveApi then { state := "IN", is_live := true, info := gi }
    else if pyUpper f.status ∈ completedStatuses then
      { state := "POST", is_live := false, info := gi }
    else { state := "IN", is_live := true, info := gi }
  | .team12 d =>
    -- sensor.py:574-676: flat team1_*/team2_* live data.
    let ourName :=
      match tf with
      | some fx =>
        if fx.homeTeam.id == teamId then fx.homeTeam.name
        else if fx.awayTeam.id == teamId then fx.awayTeam.name
        else d.team1_name
      | none => d.team1_name
    let ours1 := ourName == d.team1_name
    let gi : GameInfo :=
      { home_score := safeScore d.team1_score,
        away_score := safeScore d.team2_score,
        team_score := if ours1 then safeScore d.team1_score else safeScore d.team2_score,
        opponent_score := if ours1 then safeScore d.team2_score else safeScore d.team1_score,
        clock := d.clock, period := d.period, period_type := d.period_type,
        is_live_api := none }
    if d.period ≥ 4 ∧ isClockRunning d.clock = false ∧ d.in_ot = 0 then
      { state := "POST", is_live := false, info := gi }
    else if d.period > 0 ∨ d.in_ot ≠ 0 then
      { state := "IN", is_live := true, info := gi }
    else { state := "PRE", is_live := false, info := gi }
  | .tmStyle d =>
    -- sensor.py:679-728: list-shaped `tm` (requires at least two entries,
    -- otherwise the `elif` fails and the unrecognized-structure branch runs).
    match d.tm with
    | t1 :: t2 :: _ =>
      let isHome := t1.id == teamId
      let our := if isHome then t1 else t2
      let opp := if isHome then t2 else t1
      let gi : GameInfo :=
        { home_score := safeScore t1.score, away_score := safeScore t2.score,
          team_score := safeScore our.score, opponent_score := safeScore opp.score,
          clock := d.clock, period := d.period, period_type := d.periodType,
          is_live_api := none }
      if d.period ≥ 4 ∧ isClockRunning d.clock = false ∧ d.periodType = "REGULAR" then
        { state := "POST", is_live := false, info := gi }
      else if d.period > 0 then { state := "IN", is_live := true, info := gi }
      else { state := "PRE", is_live := false, info := gi }
    | _ => fallbackCore
  | .unknown => fallbackCore

/-- `is_our_team_home` as recomputed for the stats/top-scorer extraction
(sensor.py:754-765): defaults to `True`; fixture-style data compares home id;
`team1_*` data matches the tracked team's fixture name against `team1_name`. -/
def isOurTeamHome (teamId : String) (tf : Option Fixture) : LiveData → Bool
  | .fixtureStyle f => f.homeTeam.id == teamId
  | .team12 d =>
    match tf with
    | some fx =>
      (if fx.homeTeam.id == teamId then fx.homeTeam.name else fx.awayTeam.name)
        == d.team1_name
    | none => true
  | _ => true

/-- `_extract_team_stats` (sensor.py:926-961): `team1_stats`/`team2_stats`
for the flat shape; for a list-shaped `tm` the dict-style access
`game_data.get('tm', {}).get('1', {})` raises and the `except` returns `{}`;
all other shapes return `{}` (modelled as `none`). -/
def extractTeamStats (gd : LiveData) (isHome : Bool) : Option LiveTeamStats :=
  match gd with
  | .team12 d => some (if isHome then d.team1_stats else d.team2_stats)
  | _ => none

/-- The top-scorer scan (sensor.py:999-1008): first player whose points
strictly exceed the running maximum (which starts at 0). -/
def topScorerOf (ps : List LivePlayer) : Option LivePlayer :=
  (ps.foldl
    (fun (acc : Option LivePlayer × Int) p =>
      if p.points > acc.2 then (some p, p.points) else acc)
    (none, 0)).1

/-- `_extract_top_scorer` (sensor.py:963-1012): scans
`team1_players`/`team2_players` for the flat shape; a list-shaped `tm` raises
on dict-style access and returns `{}`; other shapes return `{}`. -/
def extractTopScorer (gd : LiveData) (isHome : Bool) : Option LivePlayer :=
  match gd with
  | .team12 d => topScorerOf (if isHome then d.team1_players else d.team2_players)
  | _ => none

/-- A stats value read with `team_stats.get(key, 0)` (sensor.py:791-804). -/
def statGet (st : Option LiveTeamStats) (f : LiveTeamStats → AttrVal) : AttrVal :=
  match st with
  | some s => f s
  | none => .int 0

/-- The update dict applied to `self._attributes` by
`_update_live_game_state` (sensor.py:771-819), key for key. -/
def mkLiveAttrs (st : String) (il : Bool) (gi : GameInfo)
    (stats : Option LiveTeamStats) (ts : Option LivePlayer) (now : Int) : AttrList :=
  [("team_score", .int gi.team_score),
   ("opponent_score", .int gi.opponent_score),
   ("game_clock", .str gi.clock),
   ("period", .int gi.period),
   ("period_type", .str gi.period_type),
   ("game_status", .str st),
   ("is_live", .bool il),
   ("score_difference", .int |gi.team_score - gi.opponent_score|),
   ("last_updated", .time now),
   ("update_frequency", .str "30 seconds"),
   ("data_source", .str "live_data"),
   ("raw_clock", .str gi.clock),
   ("api_live_indicator", optBool gi.is_live_api),
   ("home_score_live", .int gi.home_score),
   ("away_score_live", .int gi.away_score),
   ("stats_field_goal_percentage", statGet stats (·.field_goal_percentage)),
   ("stats_three_point_percentage", statGet stats (·.three_point_percentage)),
   ("stats_free_throw_percentage", statGet stats (·.free_throw_percentage)),
   ("stats_rebounds", statGet stats (·.rebounds)),
   ("stats_assists", statGet stats (·.assists)),
   ("stats_turnovers", statGet stats (·.turnovers)),
   ("stats_steals", statGet stats (·.steals)),
   ("stats_blocks", statGet stats (·.blocks)),
   ("stats_bench_points", statGet stats (·.bench_points)),
   ("stats_points_in_paint", statGet stats (·.points_in_paint)),
   ("stats_points_from_turnovers", statGet stats (·.points_from_turnovers)),
   ("stats_fast_break_points", statGet stats (·.fast_break_points)),
   ("stats_biggest_lead", statGet stats (·.biggest_lead)),
   ("stats_time_leading", statGet stats (·.time_leading)),
   ("top_scorer_name", .str (match ts with | some p => p.name | none => "")),
   ("top_scorer_points", match ts with | some p => .int p.points | none => .int 0),
   ("top_scorer_jersey", .str (match ts with | some p => p.jersey | none => "")),
   ("top_scorer_position", .str (match ts with | some p => p.position | none => "")),
   ("top_scorer_rebounds", match ts with | some p => .int p.rebounds | none => .int 0),
   ("top_scorer_assists", match ts with | some p => .int p.assists | none => .int 0),
   ("top_scorer_minutes", .str (match ts with | some p => p.minutes | none => "0:00")),
   ("top_scorer_plus_minus", match ts with | some p => p.plus_minus | none => .int 0),
   ("top_scorer_fg_percentage", match ts with | some p => p.fg_percentage | none => .int 0),
   ("top_scorer_photo", .str (match ts with | some p => p.photo | none => "")),
   ("top_scorer_is_starter", match ts with | some p => p.starter | none => .bool false),
   ("top_scorer_is_captain", match ts with | some p => p.captain | none => .bool false)]

/-- `_update_live_game_state` (sensor.py:529-825): derive state/liveness and
`game_info` from the payload shape, extract stats and the top scorer, and
merge the update dict into the existing attributes via `dict.update`. -/
def updateLiveGameState (teamId : String) (tf : Option Fixture) (now : Int)
    (gd : LiveData) (s : SensorState) : SensorState :=
  let c := liveGameCore teamId tf gd
  let home := isOurTeamHome teamId tf gd
  let stats := extractTeamStats gd home
  let ts := extractTopScorer gd home
  { s with state := c.state, is_live := c.is_live,
           attributes := upsertAll s.attributes (mkLiveAttrs c.state c.is_live c.info stats ts now) }

/-! ## Timing attribute calculators -/

/-- `_calculate_kick_off_in_seconds` (sensor.py:166-183): `None` for an
empty or unparsable start string, otherwise the signed seconds until the
start instant. -/
def calculateKickOffInSeconds (ts : TimeStr) (now : Int) : Option Int :=
  (parseTime ts).map (fun t => t - now)

/-- `_calculate_time_until_game` (sensor.py:132-164): `None` for an empty or
unparsable start string; for a future start, "In N days" / "In N hours" /
"In N minutes" following `timedelta.days`/`timedelta.seconds`; for a past or
present start, "Starting soon". -/
def calculateTimeUntilGame (ts : TimeStr) (now : Int) : Option String :=
  match parseTime ts with
  | none => none
  | some t =>
    if now < t then
      let total := (t - now).toNat
      let days := total / 86400
      let secs := total % 86400
      some (if days > 0 then "In " ++ toString days ++ " days"
            else if secs > 3600 then "In " ++ toString (secs / 3600) ++ " hours"
            else "In " ++ toString (secs / 60) ++ " minutes")
    else some "Starting soon"

/-- `_calculate_hours_since_game` (sensor.py:120-130): `None` unless the
start string is non-empty, the (upper-cased) status denotes completion and
the string parses; otherwise the elapsed hours since the start, an exact
rational standing for the Python float. -/
def calculateHoursSinceGame (ts : TimeStr) (status : String) (now : Int) : Option Rat :=
  if ts.truthy = false ∨ status ∉ completedStatuses then none
  else
    match parseTime ts with
    | some t => some (((now - t : Int) : Rat) / 3600)
    | none => none

/-! ## Fixture-only state derivation (`_update_fixture_state`) -/

/-- Python `str(bool)` rendering, for the debug f-string. -/
def pyBool (b : Bool) : String := if b then "True" else "False"

/-- The tracked team's score from fixture data (sensor.py:877). -/
def fsTeamScore (teamId : String) (f : Fixture) : Int :=
  if f.homeTeam.id == teamId then safeScore f.homeTeam.score else safeScore f.awayTeam.score

/-- The opponent's score from fixture data (sensor.py:880). -/
def fsOppScore (teamId : String) (f : Fixture) : Int :=
  if f.homeTeam.id == teamId then safeScore f.awayTeam.score else safeScore f.homeTeam.score

/-- The state decision of `_update_fixture_state` (sensor.py:840-863):
`live == 1` wins and gives `IN`; else a completed status whose parsed start
is more than one hour past gives `POST`; else a parsed future start gives
`PRE`; else the default `PRE`. -/
def fixtureStateOf (f : Fixture) (now : Int) : String × Bool :=
  let parsed := parseTime f.start_time_utc
  let status := pyUpper f.status
  if f.live == 1 then ("IN", true)
  else if decide (status ∈ completedStatuses) &&
          (match parsed with | some t => decide (now > t + 3600) | none => false) then
    ("POST", false)
  else if (match parsed with | some t => decide (now < t) | none => false) then
    ("PRE", false)
  else ("PRE", false)

/-- The `friendly_matches_seconds` entry of the consistency-check dict
(sensor.py:921): if `kick_off_in` is truthy and negative, the boolean
`kick_off_in_friendly == "Starting soon"`, else `kick_off_in_friendly`. -/
def friendlyMatchesSeconds (kos : Option Int) (kof : Option String) : AttrVal :=
  match kos with
  | some v => if v ≠ 0 ∧ v < 0 then .bool (kof = some "Starting soon") else optStr kof
  | none => optStr kof

/-- The attribute dict assigned (wholesale) by `_update_fixture_state`
(sensor.py:873-924), key for key. `st`/`il` are the state decision.
Note sensor.py:876 uses the home team's logo for `team_logo` regardless of
which side is tracked; modelled as written. -/
def fixtureAttrs (teamId : String) (now : Int) (f : Fixture)
    (st : String) (il : Bool) : AttrList :=
  let isHome := f.homeTeam.id == teamId
  let parsed := parseTime f.start_time_utc
  let status := pyUpper f.status
  let kos := calculateKickOffInSeconds f.start_time_utc now
  let kof := calculateTimeUntilGame f.start_time_utc now
  let hrs := calculateHoursSinceGame f.start_time_utc status now
  [("team_id", .str teamId),
   ("team_name", .str (if isHome then f.homeTeam.name else f.awayTeam.name)),
   ("team_logo", .str f.homeTeam.logo),
   ("team_score", .int (fsTeamScore teamId f)),
   ("opponent_name", .str (if isHome then f.awayTeam.name else f.homeTeam.name)),
   ("opponent_logo", .str (if isHome then f.awayTeam.logo else f.homeTeam.logo)),
   ("opponent_score", .int (fsOppScore teamId f)),
   ("home_away", .str (if isHome then "home" else "away")),
   ("venue", .str f.venue_name),
   ("start_time", .timeRaw f.start_time_utc),
   ("competition", .str f.competition),
   ("status", .str f.status),
   ("stats_url", .str f.stats_url),
   ("cebl_stats_url", .str f.cebl_stats_url),
   ("game_status", .str st),
   ("is_live", .bool il),
   ("is_final", .bool (st == "POST")),
   ("is_upcoming", .bool (match parsed with | some t => decide (now < t) | none => false)),
   ("score_difference", .int |fsTeamScore teamId f - fsOppScore teamId f|),
   ("final_score",
     if st == "POST" then
       .str (toString (fsTeamScore teamId f) ++ "-" ++ toString (fsOppScore teamId f))
     else .pynone),
   ("time_until_game", if st == "PRE" then optStr kof else .pynone),
   ("kick_off_in", optInt kos),
   ("kick_off_in_friendly", optStr kof),
   ("hours_since_game", optRat hrs),
   ("showing_completed_game", .bool (st == "POST")),
   ("last_updated", .time now),
   ("update_frequency", .str (if il then "30 seconds" else "1 minute")),
   ("data_source", .str "fixture_only"),
   ("fixture_status", .str status),
   ("api_live_field", .bool (f.live == 1)),
   ("game_clock", .str f.clock),
   ("period", .int f.period),
   ("period_type", .str f.period_type),
   ("debug_start_time_utc_raw", .timeRaw f.start_time_utc),
   ("debug_start_time_parsed", match parsed with | some t => .time t | none => .pynone),
   ("debug_now", .time now),
   ("debug_state_logic",
     .str ("live_api=" ++ pyBool (f.live == 1) ++ ", status=" ++ status ++ ", state=" ++ st)),
   ("timing_consistency_check", .tcheck kos (friendlyMatchesSeconds kos kof) f.start_time_utc)]

/-- `_update_fixture_state` (sensor.py:827-924): decide the lifecycle state
from the fixture alone and replace the attribute dict wholesale. -/
def updateFixtureState (teamId : String) (now : Int) (f : Fixture)
    (s : SensorState) : SensorState :=
  let p := fixtureStateOf f now
  { s with state := p.1, is_live := p.2,
           attributes := fixtureAttrs teamId now f p.1 p.2 }

/-! ## Fixture selection (`_get_team_fixture`) -/

/-- Membership of a fixture in a team's schedule (sensor.py:201-205):
the team id string equals either side's id. -/
def isTeamFixture (teamId : String) (f : Fixture) : Bool :=
  f.homeTeam.id == teamId || f.awayTeam.id == teamId

/-- Live classification used by the categorization loop (sensor.py:243). -/
def hasLiveStatus (f : Fixture) : Bool :=
  decide (pyUpper f.status ∈ liveStatuses)

/-- The `upcoming_games` bucket of the categorization loop
(sensor.py:223-250): not live-status, not completed-status, and the parsed
start time is in the future; entries carry the (always present) parsed
start. -/
def upcomingGames (now : Int) (l : List Fixture) : List (Fixture × Int) :=
  l.filterMap fun f =>
    if hasLiveStatus f then none
    else if decide (pyUpper f.status ∈ completedStatuses) then none
    else
      match parseTime f.start_time_utc with
      | some t => if now < t then some (f, t) else none
      | none => none

/-- The `completed_games` bucket of the categorization loop
(sensor.py:223-250): completed-status fixtures, and any non-live fixture
that did not qualify as upcoming (past or unparsable start); entries carry
the optional parsed start. -/
def completedGames (now : Int) (l : List Fixture) : List (Fixture × Option Int) :=
  l.filterMap fun f =>
    if hasLiveStatus f then none
    else if decide (pyUpper f.status ∈ completedStatuses) then
      some (f, parseTime f.start_time_utc)
    else
      match parseTime f.start_time_utc with
      | some t => if now < t then none else some (f, some t)
      | none => some (f, none)

/-- A stable insertion sort (insert an earlier element before any later
element it compares `le` to), modelling Python's stable `list.sort`. -/
def insertBy {α : Type} (le : α → α → Bool) (x : α) : List α → List α
  | [] => [x]
  | y :: ys => if le x y then x :: y :: ys else y :: insertBy le x ys

/-- Stable sort by repeated insertion from the right. -/
def sortStable {α : Type} (le : α → α → Bool) (l : List α) : List α :=
  l.foldr (insertBy le) []

/-- Ascending comparison for upcoming games (sensor.py:260, 285): sort by
parsed start time. (The `datetime.max` default for a missing time is dead
code — upcoming entries always carry a parsed time.) -/
def upcomingLe (a b : Fixture × Int) : Bool := a.2 ≤ b.2

/-- Descending comparison for completed games (sensor.py:261, 291):
`reverse=True` sort by parsed start, where a missing time (`datetime.min`
in the source) sorts below every actual time. -/
def completedGe (a b : Fixture × Option Int) : Bool :=
  match a.2, b.2 with
  | some x, some y => x ≥ y
  | some _, none => true
  | none, some _ => false
  | none, none => true

/-- `_get_team_fixture` (sensor.py:185-297): filter to the team's fixtures,
bucket into live/upcoming/completed, then: any live game wins; with both an
upcoming and a completed game, show the upcoming one iff the most recent
completed game started more than one day (86400 s) ago (or its time is
unparsable); else the earliest upcoming, else the most recent completed,
else the first fixture. -/
def getTeamFixture (teamId : String) (data : Option CoordData) (now : Int) :
    Option Fixture :=
  match data with
  | none => none
  | some d =>
    if d.fixtures.isEmpty then none
    else
      let team_fixtures := d.fixtures.filter (isTeamFixture teamId)
      if team_fixtures.isEmpty then none
      else
        match team_fixtures.filter hasLiveStatus with
        | f :: _ => some f
        | [] =>
          match sortStable upcomingLe (upcomingGames now team_fixtures),
                sortStable completedGe (completedGames now team_fixtures) with
          | nu :: _, rc :: _ =>
            (match rc.2 with
             | some t => if now - t > 86400 then some nu.1 else some rc.1
             | none => some nu.1)
          | nu :: _, [] => some nu.1
          | [], rc :: _ => some rc.1
          | [], [] => team_fixtures.head?

/-! ## Live-data pairing and staleness (`_get_team_live_data`,
`_is_live_data_current`) -/

/-- The fixture-by-id scan of `_get_team_live_data` (sensor.py:316-319). -/
def findFixtureById (fixtures : List Fixture) (gid : Int) : Option Fixture :=
  fixtures.find? (fun f => f.id == some gid)

/-- The entry scan of `_get_team_live_data` (sensor.py:311-331): the first
live-score entry whose fixture exists and involves the tracked team yields
the pair; per-entry failures continue the scan. -/
def findLivePair (teamId : String) (fixtures : List Fixture) :
    List (Int × LiveData) → Option LiveData × Option Fixture
  | [] => (none, none)
  | (gid, ld) :: rest =>
    match findFixtureById fixtures gid with
    | some f =>
      if isTeamFixture teamId f then (some ld, some f)
      else findLivePair teamId fixtures rest
    | none => findLivePair teamId fixtures rest

/-- `_get_team_live_data` (sensor.py:299-331). -/
def getTeamLiveData (teamId : String) (data : Option CoordData) :
    Option LiveData × Option Fixture :=
  match data with
  | none => (none, none)
  | some d =>
    if d.live_scores.isEmpty then (none, none)
    else findLivePair teamId d.fixtures d.live_scores

/-- `_is_live_data_current` (sensor.py:478-527): an empty or unparsable
fixture start time is accepted; a `SCHEDULED` fixture starting more than one
hour in the future rejects the snapshot; fixture-style live data reporting
`live != 1` against a `SCHEDULED` fixture rejects; everything else is
accepted. -/
def isLiveDataCurrent (ld : LiveData) (f : Fixture) (now : Int) : Bool :=
  match f.start_time_utc with
  | .empty => true
  | .malformed => true
  | .valid t =>
    if pyUpper f.status = "SCHEDULED" ∧ t > now ∧ t - now > 3600 then false
    else
      match ld with
      | .fixtureStyle lf =>
        if ¬(lf.live = 1) ∧ pyUpper f.status = "SCHEDULED" then false else true
      | _ => true

/-! ## Top-level reconciliation (`_update_state`) -/

/-- `_update_state` (sensor.py:425-476): pair live data with its fixture,
remember the current fixture, and derive state from the live snapshot when
it passes the currency check, else from fixture data; with neither, the
"No upcoming game" sentinel. (The live-update scheduling side effects at
sensor.py:468-476 touch no modelled state.) -/
def updateState (teamId : String) (data : Option CoordData) (now : Int)
    (s : SensorState) : SensorState :=
  let pr := getTeamLiveData teamId data
  let cf : Option Fixture :=
    match pr.2 with
    | some f => some f
    | none => getTeamFixture teamId data now
  let s1 := { s with current_fixture := cf }
  match pr.1, cf with
  | some ld, some f =>
    if isLiveDataCurrent ld f now then
      updateLiveGameState teamId (getTeamFixture teamId data now) now ld
        { s1 with is_live := true }
    else
      updateFixtureState teamId now f { s1 with is_live := false }
  | some ld, none =>
    updateLiveGameState teamId (getTeamFixture teamId data now) now ld
      { s1 with is_live := true }
  | none, _ =>
    match getTeamFixture teamId data now with
    | some f => updateFixtureState teamId now f s1
    | none =>
      { s1 with is_live := false, state := "No upcoming game",
                attributes := [("team_id", .str teamId)] }

/-! ## Live-fetch gating (`async_update_live_scores`) -/

/-- Statuses the live-score gate treats as "definitely live"
(`__init__.py`:177). -/
def gateLiveStatuses : List String := ["IN", "LIVE", "HT", "BT"]

/-- Statuses the live-score gate treats as completed (`__init__.py`:179). -/
def gateCompleteStatuses : List String := ["POST", "COMPLETE"]

/-- The per-match fetch gate of `async_update_live_scores`
(`__init__.py`:171-228), deciding `should_fetch_live` for a paired fixture:
an active status always fetches; a completed status fetches iff the start
string is non-empty, parses, and lies within the last 24 hours; a
`SCHEDULED` status fetches iff the start string is non-empty, parses, and
lies within ±15 minutes of now; parse failures leave the flag `False`. -/
def shouldFetchLive (f : Fixture) (now : Int) : Bool :=
  let status := pyUpper f.status
  if status ∈ gateLiveStatuses then true
  else if status ∈ gateCompleteStatuses ∧ f.start_time_utc.truthy = true then
    match f.start_time_utc with
    | .valid t => decide (0 ≤ now - t) && decide (now - t ≤ 86400)
    | _ => false
  else if status = "SCHEDULED" ∧ f.start_time_utc.truthy = true then
    match f.start_time_utc with
    | .valid t => decide (-900 ≤ t - now) && decide (t - now ≤ 900)
    | _ => false
  else false

/-! ## Fixture fetching (`_async_update_data`) -/

/-- A raw game object from the fixtures endpoint with the fields
`_async_update_data` reads (`__init__.py`:80-111). Each field holds the
resolved value of the corresponding `game.get(x) or game.get(y)` fallback
pair. `live` is the raw `game.get("live", 0)` value, still to be
`int()`-coerced. -/
structure GameRec where
  id : Option Int := none
  home_team_id : String := ""
  away_team_id : String := ""
  home_team_name : String := ""
  away_team_name : String := ""
  home_logo : String := ""
  away_logo : String := ""
  home_score : RawVal := .rint 0
  away_score : RawVal := .rint 0
  status : String := ""
  competition : String := ""
  venue_name : String := ""
  period : Int := 0
  start_time_utc : TimeStr := .empty
  stats_url : String := ""
  cebl_stats_url : String := ""
  live : RawVal := .rint 0
  match_status : String := ""
  clock : String := "00:00:00"
  period_type : String := ""
deriving DecidableEq, Repr

/-- One element of the fixtures-endpoint array: a game dict, or a non-dict
entry on which the per-game field accesses raise (`__init__.py`:123-125). -/
inductive RawGame where
  | dict (g : GameRec)
  | nonDict
deriving DecidableEq, Repr

/-- The decoded response body: a JSON array of games, or any other shape
(`__init__.py`:71-73). -/
inductive ApiBody where
  | arr (games : List RawGame)
  | notArray
deriving DecidableEq, Repr

/-- The outcome of one fixtures request as seen by `_async_update_data`'s
`try` block: an HTTP response, an `aiohttp.ClientError` with its message, an
`asyncio.TimeoutError`, or any other exception. -/
inductive FetchResponse where
  | response (status : Nat) (body : ApiBody)
  | clientError (msg : String)
  | timeoutErr
  | otherErr
deriving DecidableEq, Repr

/-- Per-game processing (`__init__.py`:77-125): a non-dict entry raises and
is skipped (`continue`); a game for an untracked team is filtered out; a
game whose `live` value defeats `int()` raises mid-construction and is
skipped; otherwise the normalized fixture. -/
def processGame (teams : List String) : RawGame → Option Fixture
  | .nonDict => none
  | .dict g =>
    if g.home_team_id ∈ teams ∨ g.away_team_id ∈ teams then
      match pyInt g.live with
      | some lv =>
        some { id := g.id,
               homeTeam := { id := g.home_team_id, name := g.home_team_name,
                             logo := g.home_logo, score := g.home_score },
               awayTeam := { id := g.away_team_id, name := g.away_team_name,
                             logo := g.away_logo, score := g.away_score },
               status := g.status, competition := g.competition,
               venue_name := g.venue_name, period := g.period,
               start_time_utc := g.start_time_utc, stats_url := g.stats_url,
               cebl_stats_url := g.cebl_stats_url, live := lv,
               match_status := g.match_status, clock := g.clock,
               period_type := g.period_type }
      | none => none
    else none

/-- What the body of `_async_update_data`'s `try` block does with a received
HTTP response (`__init__.py`:58-128): `ret` is a normal return,
`raiseUpdateFailed` is the `raise UpdateFailed(...)` at `__init__.py`:65. -/
inductive InnerOutcome where
  | ret (d : CoordData)
  | raiseUpdateFailed (msg : String)
deriving DecidableEq, Repr

/-- The response handling inside the `try` block (`__init__.py`:58-128):
a transient status (502/503/504) returns empty data; any other non-200
status raises `UpdateFailed`; a non-array body returns empty data; an array
is filtered and normalized per game. -/
def innerFetch (teams : List String) (status : Nat) (body : ApiBody) : InnerOutcome :=
  if status ≠ 200 then
    if status ∈ [503, 504, 502] then .ret { fixtures := [] }
    else .raiseUpdateFailed ("Invalid response from API: " ++ toString status)
  else
    match body with
    | .notArray => .ret { fixtures := [] }
    | .arr games => .ret { fixtures := games.filterMap (processGame teams) }

/-- Substring test (Python `needle in haystack`). -/
def strContains (haystack needle : String) : Bool :=
  decide (needle.data <:+: haystack.data)

/-- `_async_update_data` (`__init__.py`:52-144) as observed by the caller.
The `UpdateFailed` raised inside the `try` block for a non-transient bad
status is an `Exception`, so the blanket `except Exception` handler at
`__init__.py`:141-144 catches it and returns empty data — only the
`raise UpdateFailed` inside the `aiohttp.ClientError` handler
(`__init__.py`:136) actually escapes, because an exception raised in an
`except` clause is not routed to its sibling clauses. A `ClientError` whose
message mentions "timeout" or "connection" degrades to empty data; an
`asyncio.TimeoutError` and any other exception degrade to empty data. -/
def asyncUpdateData (teams : List String) : FetchResponse → Except String CoordData
  | .response st body =>
    (match innerFetch teams st body with
     | .ret d => .ok d
     | .raiseUpdateFailed _ => .ok { fixtures := [] })
  | .clientError msg =>
    if strContains (pyLower msg) "timeout" || strContains (pyLower msg) "connection" then
      .ok { fixtures := [] }
    else .error ("HTTP error fetching games: " ++ msg)
  | .timeoutErr => .ok { fixtures := [] }
  | .otherErr => .ok { fixtures := [] }

/-! ## Concrete inputs for witnesses and counterexamples -/

/-- A reference "now" instant used by concrete scenarios. -/
def demoNow : Int := 1720000000

/-- An empty initial sensor state. -/
def demoState : SensorState :=
  { state := "", attributes := [], is_live := false, current_fixture := none }

/-- A completed fixture of team "7" that started 13 hours before `demoNow`. -/
def cexCompleted : Fixture :=
  { id := some 1,
    homeTeam := { id := "7", name := "Ours", logo := "", score := .rint 90 },
    awayTeam := { id := "8", name := "Them", logo := "", score := .rint 80 },
    status := "COMPLETED", competition := "", venue_name := "", period := 4,
    start_time_utc := .valid (demoNow - 13 * 3600), stats_url := "",
    cebl_stats_url := "", live := 0, match_status := "", clock := "00:00:00",
    period_type := "" }

/-- A scheduled fixture of team "7" starting 3 days after `demoNow`. -/
def cexUpcoming3d : Fixture :=
  { id := some 2,
    homeTeam := { id := "7", name := "Ours", logo := "", score := .rint 0 },
    awayTeam := { id := "9", name := "Next", logo := "", score := .rint 0 },
    status := "SCHEDULED", competition := "", venue_name := "", period := 0,
    start_time_utc := .valid (demoNow + 3 * 86400), stats_url := "",
    cebl_stats_url := "", live := 0, match_status := "", clock := "00:00:00",
    period_type := "" }

/-- The same scheduled fixture 10 days out instead. -/
def cexUpcoming10d : Fixture :=
  { cexUpcoming3d with start_time_utc := .valid (demoNow + 10 * 86400) }

/-- A live-status fixture of team "7". -/
def demoLiveFixture : Fixture :=
  { id := some 3,
    homeTeam := { id := "7", name := "Ours", logo := "", score := .rint 55 },
    awayTeam := { id := "8", name := "Them", logo := "", score := .rint 51 },
    status := "LIVE", competition := "", venue_name := "", period := 3,
    start_time_utc := .valid (demoNow - 3600), stats_url := "",
    cebl_stats_url := "", live := 1, match_status := "", clock := "04:21",
    period_type := "REGULAR" }

/-- A scheduled fixture of team "12" starting 2 hours after `demoNow`,
paired with stale live data in the C1 scenario. -/
def demoScheduledSoon : Fixture :=
  { id := some 42,
    homeTeam := { id := "12", name := "Ours", logo := "", score := .rint 0 },
    awayTeam := { id := "13", name := "Them", logo := "", score := .rint 0 },
    status := "SCHEDULED", competition := "", venue_name := "", period := 0,
    start_time_utc := .valid (demoNow + 7200), stats_url := "",
    cebl_stats_url := "", live := 0, match_status := "", clock := "00:00:00",
    period_type := "" }

/-- A flat live-score record as the coordinator produces it. -/
def demoTeam12 : Team12Data :=
  { team1_name := "Ours", team2_name := "Them", team1_score := .rint 61,
    team2_score := .rint 58, clock := "00:00", period := 4,
    period_type := "REGULAR", in_ot := 0 }

/-- Coordinator data pairing the scheduled-soon fixture with live data left
over in its feed slot: the C1 staleness scenario. -/
def demoStaleData : CoordData :=
  { fixtures := [demoScheduledSoon], live_scores := [(42, .team12 demoTeam12)] }

/-! ## Association-list (Python dict) lemmas -/

theorem alookup_upsert_self (l : AttrList) (k : String) (v : AttrVal) :
    alookup (upsert l k v) k = some v := by
  induction l with
  | nil => simp [upsert, alookup]
  | cons hd tl ih =>
    by_cases h : hd.1 = k <;> simp [upsert, alookup, h, ih]

theorem alookup_upsert_ne (l : AttrList) {k k' : String} (v : AttrVal)
    (h : k' ≠ k) : alookup (upsert l k' v) k = alookup l k := by
  induction l with
  | nil => simp [upsert, alookup, h]
  | cons hd tl ih =>
    by_cases h2 : hd.1 = k'
    · simp [upsert, alookup, h2, h]
    · simp only [upsert, h2, if_false, alookup, ih]

theorem upsert_eq_of_alookup (l : AttrList) {k : String} {v : AttrVal}
    (h : alookup l k = some v) : upsert l k v = l := by
  induction l with
  | nil => simp [alookup] at h
  | cons hd tl ih =>
    obtain ⟨k', v'⟩ := hd
    by_cases h2 : k' = k
    · simp only [alookup, h2, if_true] at h
      cases h
      simp [upsert, h2]
    · simp only [alookup, h2, if_false] at h
      simp [upsert, h2, ih h]

theorem alookup_upsertAll_not_mem (l : AttrList) {upd : AttrList} {k : String}
    (h : k ∉ upd.map Prod.fst) : alookup (upsertAll l upd) k = alookup l k := by
  induction upd generalizing l with
  | nil => rfl
  | cons hd tl ih =>
    simp only [List.map_cons, List.mem_cons, not_or] at h
    have step : upsertAll l (hd :: tl) = upsertAll (upsert l hd.1 hd.2) tl := rfl
    rw [step, ih _ h.2, alookup_upsert_ne _ _ (fun he => h.1 he.symm)]

theorem alookup_upsertAll_of_mem (l : AttrList) {upd : AttrList}
    {k : String} {v : AttrVal} (hnd : (upd.map Prod.fst).Nodup)
    (hm : (k, v) ∈ upd) : alookup (upsertAll l upd) k = some v := by
  induction upd generalizing l with
  | nil => simp at hm
  | cons hd tl ih =>
    simp only [List.map_cons, List.nodup_cons] at hnd
    have step : upsertAll l (hd :: tl) = upsertAll (upsert l hd.1 hd.2) tl := rfl
    rcases List.mem_cons.mp hm with heq | htl
    · subst heq
      have hk : (k : String) ∉ tl.map Prod.fst := by
        simpa using hnd.1
      rw [step, alookup_upsertAll_not_mem _ hk, alookup_upsert_self]
    · exact step ▸ ih _ hnd.2 htl

theorem upsertAll_idem (l : AttrList) {upd : AttrList}
    (hnd : (upd.map Prod.fst).Nodup) :
    upsertAll (upsertAll l upd) upd = upsertAll l upd := by
  induction upd generalizing l with
  | nil => rfl
  | cons hd tl ih =>
    simp only [List.map_cons, List.nodup_cons] at hnd
    have hk : (hd.1 : String) ∉ tl.map Prod.fst := by simpa using hnd.1
    have step : ∀ m : AttrList, upsertAll m (hd :: tl) = upsertAll (upsert m hd.1 hd.2) tl :=
      fun _ => rfl
    rw [step, step]
    have hl : alookup (upsertAll (upsert l hd.1 hd.2) tl) hd.1 = some hd.2 := by
      rw [alookup_upsertAll_not_mem _ hk, alookup_upsert_self]
    rw [upsert_eq_of_alookup _ hl, ih _ hnd.2]

/-! ## Attribute-key facts for the live-data update dict -/

theorem mkLiveAttrs_keys (st : String) (il : Bool) (gi : GameInfo)
    (stats : Option LiveTeamStats) (ts : Option LivePlayer) (now : Int) :
    (mkLiveAttrs st il gi stats ts now).map Prod.fst =
      ["team_score", "opponent_score", "game_clock", "period", "period_type",
       "game_status", "is_live", "score_difference", "last_updated",
       "update_frequency", "data_source", "raw_clock", "api_live_indicator",
       "home_score_live", "away_score_live",
       "stats_field_goal_percentage", "stats_three_point_percentage",
       "stats_free_throw_percentage", "stats_rebounds", "stats_assists",
       "stats_turnovers", "stats_steals", "stats_blocks", "stats_bench_points",
       "stats_points_in_paint", "stats_points_from_turnovers",
       "stats_fast_break_points", "stats_biggest_lead", "stats_time_leading",
       "top_scorer_name", "top_scorer_points", "top_scorer_jersey",
       "top_scorer_position", "top_scorer_rebounds", "top_scorer_assists",
       "top_scorer_minutes", "top_scorer_plus_minus", "top_scorer_fg_percentage",
       "top_scorer_photo", "top_scorer_is_starter", "top_scorer_is_captain"] := rfl

theorem mkLiveAttrs_keys_nodup (st : String) (il : Bool) (gi : GameInfo)
    (stats : Option LiveTeamStats) (ts : Option LivePlayer) (now : Int) :
    ((mkLiveAttrs st il gi stats ts now).map Prod.fst).Nodup := by
  rw [mkLiveAttrs_keys]
  decide

/-! ## Claim C4 -/

/-- C4: for every fixture whose live flag explicitly asserts live
(`live == 1`), the derived lifecycle state is `IN`, independent of the
fixture's free-text status value, on both the fixture-only derivation path
(`_update_fixture_state`) and the live-snapshot derivation path
(`_update_live_game_state` on fixture-style live data). -/
theorem claim_C4_live_flag_forces_in (teamId : String) (tf : Option Fixture)
    (now : Int) (f : Fixture) (s : SensorState) (h : f.live = 1) :
    (updateFixtureState teamId now f s).state = "IN" ∧
    (updateLiveGameState teamId tf now (.fixtureStyle f) s).state = "IN" := by
  constructor
  · simp [updateFixtureState, fixtureStateOf, h]
  · simp [updateLiveGameState, liveGameCore, h]

/-- Witness for C4 at a concrete live-flagged fixture. -/
theorem claim_C4_witness :
    (updateFixtureState "7" demoNow demoLiveFixture demoState).state = "IN" ∧
    (updateLiveGameState "7" none demoNow (.fixtureStyle demoLiveFixture)
        demoState).state = "IN" :=
  claim_C4_live_flag_forces_in "7" none demoNow demoLiveFixture demoState rfl

/-! ## Claim C6 -/

/-- C6: for an accepted live snapshot without an explicit live indicator
(the flat `team1_*`/`team2_*` shape), a `"00:00"` clock at period ≥ 4 with
no overtime flag yields `POST`; a `"00:00"` clock at period 4 with the
overtime flag set yields `IN`; a running clock with period > 0 or the
overtime flag set yields `IN`; and period 0 without overtime yields `PRE`. -/
theorem claim_C6_clock_period_derivation (teamId : String) (tf : Option Fixture)
    (now : Int) (s : SensorState) (d : Team12Data) :
    (d.clock = "00:00" → 4 ≤ d.period → d.in_ot = 0 →
      (updateLiveGameState teamId tf now (.team12 d) s).state = "POST") ∧
    (d.clock = "00:00" → d.period = 4 → d.in_ot ≠ 0 →
      (updateLiveGameState teamId tf now (.team12 d) s).state = "IN") ∧
    (isClockRunning d.clock = true → (0 < d.period ∨ d.in_ot ≠ 0) →
      (updateLiveGameState teamId tf now (.team12 d) s).state = "IN") ∧
    (d.period = 0 → d.in_ot = 0 →
      (updateLiveGameState teamId tf now (.team12 d) s).state = "PRE") := by
  refine ⟨?_, ?_, ?_, ?_⟩
  · intro hc hp hot
    have hrun : isClockRunning d.clock = false := by rw [hc]; rfl
    simp only [updateLiveGameState, liveGameCore]
    rw [if_pos ⟨hp, hrun, hot⟩]
  · intro hc hp hot
    have hrun : isClockRunning d.clock = false := by rw [hc]; rfl
    simp only [updateLiveGameState, liveGameCore]
    rw [if_neg (fun h => hot h.2.2), if_pos (Or.inr hot)]
  · intro hrun hpo
    have h1 : ¬(d.period ≥ 4 ∧ isClockRunning d.clock = false ∧ d.in_ot = 0) := by
      rw [hrun]; simp
    simp only [updateLiveGameState, liveGameCore]
    rw [if_neg h1, if_pos hpo]
  · intro hp hot
    have h1 : ¬(d.period ≥ 4 ∧ isClockRunning d.clock = false ∧ d.in_ot = 0) := by
      rw [hp]; intro h; exact absurd h.1 (by norm_num)
    have h2 : ¬(d.period > 0 ∨ d.in_ot ≠ 0) := by rw [hp, hot]; simp
    simp only [updateLiveGameState, liveGameCore]
    rw [if_neg h1, if_neg h2]

/-- Witness for C6 covering all four conjuncts at concrete snapshots. -/
theorem claim_C6_witness :
    (updateLiveGameState "7" none demoNow (.team12 demoTeam12) demoState).state = "POST" ∧
    (updateLiveGameState "7" none demoNow
        (.team12 { demoTeam12 with in_ot := 1 }) demoState).state = "IN" ∧
    (updateLiveGameState "7" none demoNow
        (.team12 { demoTeam12 with clock := "03:12", period := 2 }) demoState).state = "IN" ∧
    (updateLiveGameState "7" none demoNow
        (.team12 { demoTeam12 with clock := "10:00", period := 0 }) demoState).state = "PRE" :=
  ⟨(claim_C6_clock_period_derivation "7" none demoNow demoState demoTeam12).1
      rfl (by decide) rfl,
   (claim_C6_clock_period_derivation "7" none demoNow demoState
      { demoTeam12 with in_ot := 1 }).2.1 rfl rfl (by decide),
   (claim_C6_clock_period_derivation "7" none demoNow demoState
      { demoTeam12 with clock := "03:12", period := 2 }).2.2.1 (by decide)
      (Or.inl (by decide)),
   (claim_C6_clock_period_derivation "7" none demoNow demoState
      { demoTeam12 with clock := "10:00", period := 0 }).2.2.2 rfl rfl⟩

/-! ## Claim C7 -/

/-- C7: a clock string no parse accepts (for example the empty string) at
period 2 resolves the live-snapshot state to `IN`: the parse failure is
treated as "clock running". (The model is a total function: the
`ValueError` branch the source catches at sensor.py:661-662 is the
`clockParse _ = none` case, so no exception can escape.) -/
theorem claim_C7_unparsable_clock_is_in (teamId : String) (tf : Option Fixture)
    (now : Int) (s : SensorState) (d : Team12Data)
    (hc : clockParse d.clock = none) (hp : d.period = 2) :
    (updateLiveGameState teamId tf now (.team12 d) s).state = "IN" := by
  have hrun : isClockRunning d.clock = true := by
    unfold isClockRunning
    rw [hc]
  have h1 : ¬(d.period ≥ 4 ∧ isClockRunning d.clock = false ∧ d.in_ot = 0) := by
    rw [hrun]; simp
  simp only [updateLiveGameState, liveGameCore]
  rw [if_neg h1, if_pos (Or.inl (by rw [hp]; norm_num))]

/-- Witness for C7 at the empty clock string. -/
theorem claim_C7_witness :
    (updateLiveGameState "7" none demoNow
        (.team12 { demoTeam12 with clock := "", period := 2 }) demoState).state = "IN" :=
  claim_C7_unparsable_clock_is_in "7" none demoNow demoState
    { demoTeam12 with clock := "", period := 2 } rfl rfl

/-! ## Claim C5 -/

theorem mem_gateComplete_ne_scheduled {s : String}
    (h : s ∈ gateCompleteStatuses) : s ≠ "SCHEDULED" := by
  intro he
  subst he
  exact absurd h (by decide)

/-- C5: the live-data fetch gate fires for a paired fixture if and only if
the fixture's upper-cased status is in the gate's active set
(`IN`/`LIVE`/`HT`/`BT`), or it is in the gate's completed set
(`POST`/`COMPLETE`) with a parsed start time within the last 24 hours, or it
is `SCHEDULED` with a parsed start time within ±15 minutes of now; in every
other case — including empty or unparsable start times for
scheduled/completed fixtures — the fetch is skipped. -/
theorem claim_C5_fetch_gate (f : Fixture) (now : Int) :
    shouldFetchLive f now = true ↔
      (pyUpper f.status ∈ gateLiveStatuses
       ∨ (pyUpper f.status ∈ gateCompleteStatuses ∧
          ∃ t, f.start_time_utc = .valid t ∧ 0 ≤ now - t ∧ now - t ≤ 86400)
       ∨ (pyUpper f.status = "SCHEDULED" ∧
          ∃ t, f.start_time_utc = .valid t ∧ -900 ≤ t - now ∧ t - now ≤ 900)) := by
  unfold shouldFetchLive
  by_cases h1 : pyUpper f.status ∈ gateLiveStatuses
  · simp [h1]
  · rw [if_neg h1]
    by_cases h2 : pyUpper f.status ∈ gateCompleteStatuses
    · have hns := mem_gateComplete_ne_scheduled h2
      cases hts : f.start_time_utc with
      | empty =>
        rw [if_neg (fun h => by simp [TimeStr.truthy] at h),
            if_neg (fun h => hns h.1)]
        simp [h1, h2, hns, hts]
      | malformed =>
        rw [if_pos ⟨h2, rfl⟩]
        simp [h1, hns, hts]
      | valid t =>
        rw [if_pos ⟨h2, rfl⟩]
        simp only [hts, h2, h1, hns, false_or, true_and, ne_eq, false_and, or_false]
        constructor
        · intro h
          exact ⟨t, rfl, by simpa using h⟩
        · rintro ⟨t2, ht2, ha⟩
          injection ht2 with he
          subst he
          simp [ha.1, ha.2]
    · rw [if_neg (fun h => h2 h.1)]
      by_cases h3 : pyUpper f.status = "SCHEDULED"
      · cases hts : f.start_time_utc with
        | empty =>
          rw [if_neg (fun h => by simp [TimeStr.truthy] at h)]
          constructor
          · intro h
            exact absurd h (by simp)
          · rintro (h | h | h)
            · exact absurd h h1
            · exact absurd h.1 h2
            · obtain ⟨_, ht2, _⟩ := h.2
              exact TimeStr.noConfusion ht2
        | malformed =>
          rw [if_pos ⟨h3, rfl⟩]
          constructor
          · intro h
            exact absurd h (by simp)
          · rintro (h | h | h)
            · exact absurd h h1
            · exact absurd h.1 h2
            · obtain ⟨_, ht2, _⟩ := h.2
              exact TimeStr.noConfusion ht2
        | valid t =>
          rw [if_pos ⟨h3, rfl⟩]
          constructor
          · intro h
            exact Or.inr (Or.inr ⟨h3, t, rfl, by simpa using h⟩)
          · rintro (h | h | h)
            · exact absurd h h1
            · exact absurd h.1 h2
            · obtain ⟨_, t2, ht2, hb⟩ := h
              injection ht2 with he
              subst he
              simp [hb.1, hb.2]
      · rw [if_neg (fun h => h3 h.1)]
        simp [h1, h2, h3]

/-! ## Claim C10 -/

theorem updateLiveGameState_attributes (teamId : String) (tf : Option Fixture)
    (now : Int) (gd : LiveData) (s : SensorState) :
    (updateLiveGameState teamId tf now gd s).attributes =
      upsertAll s.attributes
        (mkLiveAttrs (liveGameCore teamId tf gd).state
          (liveGameCore teamId tf gd).is_live (liveGameCore teamId tf gd).info
          (extractTeamStats gd (isOurTeamHome teamId tf gd))
          (extractTopScorer gd (isOurTeamHome teamId tf gd)) now) := by
  simp only [updateLiveGameState]

theorem mem_mkLiveAttrs_team_score (st : String) (il : Bool) (gi : GameInfo)
    (stats : Option LiveTeamStats) (ts : Option LivePlayer) (now : Int) :
    ("team_score", AttrVal.int gi.team_score) ∈ mkLiveAttrs st il gi stats ts now := by
  unfold mkLiveAttrs
  exact List.mem_cons_self _ _

theorem mem_mkLiveAttrs_opponent_score (st : String) (il : Bool) (gi : GameInfo)
    (stats : Option LiveTeamStats) (ts : Option LivePlayer) (now : Int) :
    ("opponent_score", AttrVal.int gi.opponent_score) ∈ mkLiveAttrs st il gi stats ts now := by
  unfold mkLiveAttrs
  exact List.mem_cons_of_mem _ (List.mem_cons_self _ _)

theorem mem_mkLiveAttrs_score_difference (st : String) (il : Bool) (gi : GameInfo)
    (stats : Option LiveTeamStats) (ts : Option LivePlayer) (now : Int) :
    ("score_difference", AttrVal.int |gi.team_score - gi.opponent_score|) ∈
      mkLiveAttrs st il gi stats ts now := by
  unfold mkLiveAttrs
  exact List.mem_cons_of_mem _ (List.mem_cons_of_mem _ (List.mem_cons_of_mem _
    (List.mem_cons_of_mem _ (List.mem_cons_of_mem _ (List.mem_cons_of_mem _
      (List.mem_cons_of_mem _ (List.mem_cons_self _ _)))))))

/-- C10: in every produced team view, on both the live-data path and the
fixture-only path, the `team_score` and `opponent_score` attributes are the
safe-coerced scores and `score_difference` is their absolute difference —
hence non-negative — for all score inputs (null and non-numeric scores
coerce to 0 via `safeScore`). -/
theorem claim_C10_score_difference_abs (teamId : String) (tf : Option Fixture)
    (now : Int) (gd : LiveData) (f : Fixture) (s : SensorState) :
    (alookup (updateLiveGameState teamId tf now gd s).attributes "team_score"
        = some (.int (liveGameCore teamId tf gd).info.team_score)
     ∧ alookup (updateLiveGameState teamId tf now gd s).attributes "opponent_score"
        = some (.int (liveGameCore teamId tf gd).info.opponent_score)
     ∧ alookup (updateLiveGameState teamId tf now gd s).attributes "score_difference"
        = some (.int |(liveGameCore teamId tf gd).info.team_score -
                      (liveGameCore teamId tf gd).info.opponent_score|)
     ∧ 0 ≤ |(liveGameCore teamId tf gd).info.team_score -
            (liveGameCore teamId tf gd).info.opponent_score|)
    ∧ (alookup (updateFixtureState teamId now f s).attributes "team_score"
        = some (.int (fsTeamScore teamId f))
     ∧ alookup (updateFixtureState teamId now f s).attributes "opponent_score"
        = some (.int (fsOppScore teamId f))
     ∧ alookup (updateFixtureState teamId now f s).attributes "score_difference"
        = some (.int |fsTeamScore teamId f - fsOppScore teamId f|)
     ∧ 0 ≤ |fsTeamScore teamId f - fsOppScore teamId f|)
    ∧ safeScore .rnull = 0
    ∧ safeScore (.rstr "not a number") = 0 := by
  have hnd := mkLiveAttrs_keys_nodup (liveGameCore teamId tf gd).state
    (liveGameCore teamId tf gd).is_live (liveGameCore teamId tf gd).info
    (extractTeamStats gd (isOurTeamHome teamId tf gd))
    (extractTopScorer gd (isOurTeamHome teamId tf gd)) now
  refine ⟨⟨?_, ?_, ?_, abs_nonneg _⟩, ⟨rfl, rfl, rfl, abs_nonneg _⟩, rfl, rfl⟩
  · rw [updateLiveGameState_attributes]
    exact alookup_upsertAll_of_mem _ hnd (mem_mkLiveAttrs_team_score _ _ _ _ _ _)
  · rw [updateLiveGameState_attributes]
    exact alookup_upsertAll_of_mem _ hnd (mem_mkLiveAttrs_opponent_score _ _ _ _ _ _)
  · rw [updateLiveGameState_attributes]
    exact alookup_upsertAll_of_mem _ hnd (mem_mkLiveAttrs_score_difference _ _ _ _ _ _)

/-! ## Claim C3 -/

/-- C3: for every team whose fixture list contains exactly one fixture with
a live-indicating status (`LIVE`, `IN_PROGRESS`, `HALFTIME`,
`QUARTER_BREAK`), fixture selection returns that fixture, regardless of any
other upcoming or completed fixtures present for the team. -/
theorem claim_C3_single_live_fixture_selected (teamId : String) (d : CoordData)
    (now : Int) (f : Fixture)
    (h : (d.fixtures.filter (isTeamFixture teamId)).filter hasLiveStatus = [f]) :
    getTeamFixture teamId (some d) now = some f := by
  have hmem : f ∈ d.fixtures.filter (isTeamFixture teamId) :=
    List.mem_of_mem_filter (h ▸ List.mem_cons_self f [])
  have hne : d.fixtures.filter (isTeamFixture teamId) ≠ [] :=
    List.ne_nil_of_mem hmem
  have hne0 : d.fixtures ≠ [] :=
    List.ne_nil_of_mem (List.mem_of_mem_filter hmem)
  simp only [getTeamFixture]
  rw [if_neg (by simpa [List.isEmpty_iff] using hne0),
      if_neg (by simpa [List.isEmpty_iff] using hne), h]

/-- Witness for C3: a live fixture alongside a completed and an upcoming
fixture for the same team. -/
theorem claim_C3_witness :
    getTeamFixture "7"
      (some { fixtures := [cexCompleted, demoLiveFixture, cexUpcoming3d] })
      demoNow = some demoLiveFixture :=
  claim_C3_single_live_fixture_selected "7"
    { fixtures := [cexCompleted, demoLiveFixture, cexUpcoming3d] }
    demoNow demoLiveFixture (by decide)

/-! ## Claim C2 -/

/-- C2 counterexample: with a completed game that started 13 hours ago and
an upcoming game 3 days out, `_get_team_fixture` returns the completed
game, not the upcoming one the claim's 12h/7d transition rule predicts
(the code's actual rule is a plain 24-hour threshold, sensor.py:271-277);
with the upcoming game 10 days out it also returns the completed game. -/
theorem claim_C2_counterexample :
    getTeamFixture "7" (some { fixtures := [cexCompleted, cexUpcoming3d] })
        demoNow = some cexCompleted
    ∧ getTeamFixture "7" (some { fixtures := [cexCompleted, cexUpcoming3d] })
        demoNow ≠ some cexUpcoming3d
    ∧ getTeamFixture "7" (some { fixtures := [cexCompleted, cexUpcoming10d] })
        demoNow = some cexCompleted :=
  ⟨by decide, by decide, by decide⟩

/-- C2 amended: for a team with no live-status fixture and both an upcoming
and a completed bucket, where the most recent completed game has a parsed
start time `tc`, selection returns the earliest upcoming fixture iff the
completed game started more than 24 hours (86400 s) ago, and otherwise the
completed fixture — so a 13-hour-old completed game is kept whether the
upcoming game is 3 or 10 days away. -/
theorem claim_C2_amended_day_rule (teamId : String) (d : CoordData)
    (now tc : Int) (fu : Fixture × Int) (restU : List (Fixture × Int))
    (fc : Fixture) (restC : List (Fixture × Option Int))
    (hlive : (d.fixtures.filter (isTeamFixture teamId)).filter hasLiveStatus = [])
    (hup : sortStable upcomingLe
        (upcomingGames now (d.fixtures.filter (isTeamFixture teamId))) = fu :: restU)
    (hcomp : sortStable completedGe
        (completedGames now (d.fixtures.filter (isTeamFixture teamId)))
        = (fc, some tc) :: restC) :
    getTeamFixture teamId (some d) now =
      if now - tc > 86400 then some fu.1 else some fc := by
  have hupne : upcomingGames now (d.fixtures.filter (isTeamFixture teamId)) ≠ [] := by
    intro he
    rw [he] at hup
    simp [sortStable] at hup
  have htfne : d.fixtures.filter (isTeamFixture teamId) ≠ [] := by
    intro he
    exact hupne (by rw [he]; rfl)
  have hfne : d.fixtures ≠ [] := by
    intro he
    exact htfne (by rw [he]; rfl)
  simp only [getTeamFixture]
  rw [if_neg (by simpa [List.isEmpty_iff] using hfne),
      if_neg (by simpa [List.isEmpty_iff] using htfne),
      hlive, hup, hcomp]

/-- Witness for C2 (amended): the 13-hour-old completed game is selected
over the 3-days-out upcoming game. -/
theorem claim_C2_witness :
    getTeamFixture "7" (some { fixtures := [cexCompleted, cexUpcoming3d] })
        demoNow = some cexCompleted := by
  have h := claim_C2_amended_day_rule "7"
    { fixtures := [cexCompleted, cexUpcoming3d] } demoNow (demoNow - 13 * 3600)
    (cexUpcoming3d, demoNow + 3 * 86400) [] cexCompleted []
    (by decide) (by decide) (by decide)
  rw [h, if_neg (by decide)]

/-! ## Claim C1 -/

theorem fixtureAttrs_data_source (teamId : String) (now : Int) (f : Fixture)
    (st : String) (il : Bool) :
    alookup (fixtureAttrs teamId now f st il) "data_source"
      = some (.str "fixture_only") := rfl

/-- C1: when a live snapshot is supplied together with a paired fixture
whose upper-cased status is `SCHEDULED` and whose parsed start time is more
than one hour after the current time, the snapshot is rejected as stale
(`_is_live_data_current` returns false), reconciliation falls back to
fixture-only derivation, and the resulting view carries
`data_source == "fixture_only"`. -/
theorem claim_C1_stale_live_rejected (teamId : String) (d : CoordData)
    (now t : Int) (s : SensorState) (ld : LiveData) (fx : Fixture)
    (hpair : getTeamLiveData teamId (some d) = (some ld, some fx))
    (hst : pyUpper fx.status = "SCHEDULED")
    (ht : fx.start_time_utc = .valid t)
    (hfar : t - now > 3600) :
    isLiveDataCurrent ld fx now = false
    ∧ updateState teamId (some d) now s =
        updateFixtureState teamId now fx
          { s with current_fixture := some fx, is_live := false }
    ∧ alookup (updateState teamId (some d) now s).attributes "data_source"
        = some (.str "fixture_only") := by
  have hcur : isLiveDataCurrent ld fx now = false := by
    simp only [isLiveDataCurrent, ht]
    rw [if_pos ⟨hst, by omega, hfar⟩]
  have hupd : updateState teamId (some d) now s =
      updateFixtureState teamId now fx
        { s with current_fixture := some fx, is_live := false } := by
    simp [updateState, hpair, hcur]
  refine ⟨hcur, hupd, ?_⟩
  rw [hupd]
  simp only [updateFixtureState]
  exact fixtureAttrs_data_source teamId now fx _ _

/-- Witness for C1: stale flat live data against a fixture scheduled two
hours out. -/
theorem claim_C1_witness :
    isLiveDataCurrent (.team12 demoTeam12) demoScheduledSoon demoNow = false
    ∧ updateState "12" (some demoStaleData) demoNow demoState =
        updateFixtureState "12" demoNow demoScheduledSoon
          { demoState with current_fixture := some demoScheduledSoon,
                           is_live := false }
    ∧ alookup (updateState "12" (some demoStaleData) demoNow
          demoState).attributes "data_source" = some (.str "fixture_only") :=
  claim_C1_stale_live_rejected "12" demoStaleData demoNow (demoNow + 7200)
    demoState (.team12 demoTeam12) demoScheduledSoon (by decide) (by decide)
    rfl (by decide)

/-! ## Claim C9 -/

theorem updateLiveGameState_eq_mk (teamId : String) (tf : Option Fixture)
    (now : Int) (gd : LiveData) (s : SensorState) :
    updateLiveGameState teamId tf now gd s =
      SensorState.mk (liveGameCore teamId tf gd).state
        (upsertAll s.attributes
          (mkLiveAttrs (liveGameCore teamId tf gd).state
            (liveGameCore teamId tf gd).is_live (liveGameCore teamId tf gd).info
            (extractTeamStats gd (isOurTeamHome teamId tf gd))
            (extractTopScorer gd (isOurTeamHome teamId tf gd)) now))
        (liveGameCore teamId tf gd).is_live s.current_fixture := by
  simp only [updateLiveGameState]

theorem updateFixtureState_eq_mk (teamId : String) (now : Int) (f : Fixture)
    (s : SensorState) :
    updateFixtureState teamId now f s =
      SensorState.mk (fixtureStateOf f now).1
        (fixtureAttrs teamId now f (fixtureStateOf f now).1 (fixtureStateOf f now).2)
        (fixtureStateOf f now).2 s.current_fixture := by
  simp only [updateFixtureState]

/-- C9: reconciliation is idempotent — running `_update_state` twice on the
same coordinator data with the current time held fixed leaves the sensor
state (state string, attribute dictionary, liveness flag, current fixture)
exactly as after the first run; in particular no attribute drifts or
accumulates, because re-merging the same live update dict is absorbed. -/
theorem claim_C9_reconciliation_idempotent (teamId : String)
    (data : Option CoordData) (now : Int) (s : SensorState) :
    updateState teamId data now (updateState teamId data now s) =
      updateState teamId data now s := by
  simp only [updateState]
  rcases hpr : getTeamLiveData teamId data with ⟨ld, pf⟩
  simp only [hpr]
  cases pf with
  | some f0 =>
    cases ld with
    | some ld0 =>
      by_cases hc : isLiveDataCurrent ld0 f0 now = true
      · simp only [hc, if_true]
        simp only [updateLiveGameState_eq_mk, SensorState.mk.injEq, and_true,
          true_and]
        exact upsertAll_idem _ (mkLiveAttrs_keys_nodup _ _ _ _ _ _)
      · have hc2 : isLiveDataCurrent ld0 f0 now = false := by
          simpa using hc
        simp only [hc2, Bool.false_eq_true, if_false]
        simp only [updateFixtureState_eq_mk]
    | none =>
      rcases hg : getTeamFixture teamId data now with _ | f1
      · simp only [hg]
      · simp only [hg, updateFixtureState_eq_mk]
  | none =>
    cases ld with
    | some ld0 =>
      rcases hg : getTeamFixture teamId data now with _ | f1
      · simp only [hg]
        simp only [updateLiveGameState_eq_mk, SensorState.mk.injEq, and_true,
          true_and]
        exact upsertAll_idem _ (mkLiveAttrs_keys_nodup _ _ _ _ _ _)
      · simp only [hg]
        by_cases hc : isLiveDataCurrent ld0 f1 now = true
        · simp only [hc, if_true]
          simp only [updateLiveGameState_eq_mk, SensorState.mk.injEq, and_true,
            true_and]
          exact upsertAll_idem _ (mkLiveAttrs_keys_nodup _ _ _ _ _ _)
        · have hc2 : isLiveDataCurrent ld0 f1 now = false := by
            simpa using hc
          simp only [hc2, Bool.false_eq_true, if_false]
          simp only [updateFixtureState_eq_mk]
    | none =>
      rcases hg : getTeamFixture teamId data now with _ | f1
      · simp only [hg]
      · simp only [hg, updateFixtureState_eq_mk]

/-! ## Claim C8 -/

/-- C8 (code bug): the claim says a non-200 status outside the transient
class (502/503/504) raises the hard `UpdateFailed` error — and the `try`
body does raise it (first conjunct) — but the blanket `except Exception`
handler at `__init__.py`:141-144 catches that very exception and returns
empty data, so the caller observes `{"fixtures": []}` for e.g. a 404
(second conjunct). The remaining conjuncts record the behaviours the claim
gets right: empty data (not a failure) for 502/503/504, a timeout, and a
non-array body; a transient-classified `ClientError` degrades while a
non-transient one is the only path that actually raises; and a per-record
failure skips just that game. -/
theorem claim_C8_nontransient_status_swallowed :
    innerFetch ["7"] 404 .notArray
      = .raiseUpdateFailed "Invalid response from API: 404"
    ∧ asyncUpdateData ["7"] (.response 404 .notArray) = .ok { fixtures := [] }
    ∧ asyncUpdateData ["7"] (.response 502 .notArray) = .ok { fixtures := [] }
    ∧ asyncUpdateData ["7"] (.response 503 .notArray) = .ok { fixtures := [] }
    ∧ asyncUpdateData ["7"] (.response 504 .notArray) = .ok { fixtures := [] }
    ∧ asyncUpdateData ["7"] .timeoutErr = .ok { fixtures := [] }
    ∧ asyncUpdateData ["7"] (.response 200 .notArray) = .ok { fixtures := [] }
    ∧ asyncUpdateData ["7"] (.clientError "Connection reset by peer")
        = .ok { fixtures := [] }
    ∧ asyncUpdateData ["7"] (.clientError "server disconnected")
        = .error "HTTP error fetching games: server disconnected"
    ∧ (∀ g1 g2 : RawGame,
        asyncUpdateData ["7"] (.response 200 (.arr [g1, .nonDict, g2]))
          = asyncUpdateData ["7"] (.response 200 (.arr [g1, g2]))) := by
  refine ⟨by decide, rfl, rfl, rfl, rfl, rfl, rfl, rfl, rfl, ?_⟩
  intro g1 g2
  have hnd : processGame ["7"] RawGame.nonDict = none := rfl
  simp only [asyncUpdateData, innerFetch]
  rcases hg1 : processGame ["7"] g1 with _ | fx1 <;>
    simp [List.filterMap_cons, hg1, hnd]

end CEBL
